import Mathlib

/-!
Shallow embedding of the population-dynamics simulation engine of
`src/PopulationEcologyPlatform.tsx`.

JavaScript numbers are modelled as rationals (ℚ).  The only place in the
engine where an arithmetic operation on well-formed inputs can produce a
non-finite JS value (`Infinity` or `NaN`) is the division `N / params.K`
inside `logisticGrowthDiscrete` when `K = 0`; that division is embedded as
`qdiv`, returning `none` for a zero divisor, so `logisticGrowthDiscrete`
returns `Option ℚ` with `none` standing for a non-finite result.  The other
step functions contain no failing operation on the inputs the claims range
over and are embedded as total rational functions (float overflow to
`Infinity` is outside the rational model; divisions by `K1 = 0` / `K2 = 0`
in the competition integrator and `dt = 0` in the substep count are caller
contract violations per the spec and follow the rational convention
`x / 0 = 0`).
-/

/-- The flat parameter record of the component (`params` state, source
lines 45–70). -/
structure Params where
  birthRate : ℚ
  deathRate : ℚ
  N0 : ℚ
  K : ℚ
  a : ℚ
  b : ℚ
  c : ℚ
  d : ℚ
  P0 : ℚ
  r1 : ℚ
  r2 : ℚ
  K1 : ℚ
  K2 : ℚ
  alpha12 : ℚ
  alpha21 : ℚ
  N1_0 : ℚ
  N2_0 : ℚ
  dt : ℚ
  timeStep : ℚ
  deriving Repr, DecidableEq

/-- The initial values of the `params` state (source lines 45–70). -/
def defaultParams : Params where
  birthRate := 0.3
  deathRate := 0.1
  N0 := 50
  K := 1000
  a := 1.0
  b := 0.01
  c := 0.005
  d := 0.8
  P0 := 50
  r1 := 0.8
  r2 := 0.7
  K1 := 1000
  K2 := 1000
  alpha12 := 0.6
  alpha21 := 0.5
  N1_0 := 50
  N2_0 := 50
  dt := 0.02
  timeStep := 0.2

/-- `exponentialGrowthDiscrete` (source lines 78–82):
`if (N <= 0) return 0; return N * (1 + (birthRate - deathRate))`. -/
def exponentialGrowthDiscrete (params : Params) (N : ℚ) : ℚ :=
  if N ≤ 0 then 0
  else
    let netGrowthRate := params.birthRate - params.deathRate
    N * (1 + netGrowthRate)

/-- Division with an explicit zero-divisor case: in JS, `x / 0` is
`Infinity`, `-Infinity` or `NaN`, all of which fail the driver's
`isFinite` check; `none` stands for that non-finite outcome. -/
def qdiv (x y : ℚ) : Option ℚ :=
  if y = 0 then none else some (x / y)

/-- `logisticGrowthDiscrete` (source lines 84–88):
`if (N <= 0) return 0; return N * (1 + (birthRate - deathRate) * (1 - N / K))`.
A zero `K` makes the JS result non-finite (`±Infinity`, or `NaN` when the
net growth rate is 0), modelled as `none`. -/
def logisticGrowthDiscrete (params : Params) (N : ℚ) : Option ℚ :=
  if N ≤ 0 then some 0
  else
    let netGrowthRate := params.birthRate - params.deathRate
    (qdiv N params.K).map (fun ratio => N * (1 + netGrowthRate * (1 - ratio)))

/-- `Math.ceil(timeIncrement / params.dt)` — the Euler substep count shared
by both ODE integrators (source lines 100 and 130). -/
def substepCount (params : Params) (timeIncrement : ℚ) : ℤ :=
  Int.ceil (timeIncrement / params.dt)

/-- `timeIncrement / steps` — the per-substep size shared by both ODE
integrators (source lines 101 and 131). -/
def actualDtOf (params : Params) (timeIncrement : ℚ) : ℚ :=
  timeIncrement / ((substepCount params timeIncrement : ℤ) : ℚ)

/-- One Euler substep of the Lotka-Volterra predator-prey loop body
(source lines 103–113): both derivatives are evaluated at the current
state, then each component is updated and clamped with `Math.max(0, ·)`. -/
def lvEulerStep (params : Params) (actualDt : ℚ) (s : ℚ × ℚ) : ℚ × ℚ :=
  let dN_dt := params.a * s.1 - params.b * s.1 * s.2
  let dP_dt := params.c * s.1 * s.2 - params.d * s.2
  (max 0 (s.1 + dN_dt * actualDt), max 0 (s.2 + dP_dt * actualDt))

/-- `predatorPreyODE` (source lines 91–119). -/
def predatorPreyODE (params : Params) (N P timeIncrement : ℚ) : ℚ × ℚ :=
  if N ≤ 0 ∨ P ≤ 0 then (max 0 N, max 0 P)
  else
    (lvEulerStep params (actualDtOf params timeIncrement))^[(substepCount params timeIncrement).toNat] (N, P)

/-- One Euler substep of the Lotka-Volterra competition loop body
(source lines 133–143). -/
def compEulerStep (params : Params) (actualDt : ℚ) (s : ℚ × ℚ) : ℚ × ℚ :=
  let dN1_dt := params.r1 * s.1 * (1 - (s.1 + params.alpha12 * s.2) / params.K1)
  let dN2_dt := params.r2 * s.2 * (1 - (s.2 + params.alpha21 * s.1) / params.K2)
  (max 0 (s.1 + dN1_dt * actualDt), max 0 (s.2 + dN2_dt * actualDt))

/-- `competitionODE` (source lines 121–149). -/
def competitionODE (params : Params) (N1 N2 timeIncrement : ℚ) : ℚ × ℚ :=
  if N1 ≤ 0 ∨ N2 ≤ 0 then (max 0 N1, max 0 N2)
  else
    (compEulerStep params (actualDtOf params timeIncrement))^[(substepCount params timeIncrement).toNat] (N1, N2)

/-- One trajectory sample (the `DataPoint` interface, source lines 6–12);
`none` stands for a JS `undefined` field. -/
structure DataPoint where
  time : ℚ
  N : Option ℚ
  P : Option ℚ
  N1 : Option ℚ
  N2 : Option ℚ
  deriving Repr, DecidableEq

/-- The four values of the `selectedModel` state string. -/
inductive ModelKind
  | exponential
  | logistic
  | predatorprey
  | competition
  deriving Repr, DecidableEq

/-- The JS `||` fallback used for `lastPoint.N || params.N0` and its
siblings (source lines 179, 187, 195–196, 207–208): a missing
(`undefined`) field AND a stored value of `0` are both falsy, so both are
replaced by the default. -/
def jsOr (v : Option ℚ) (dflt : ℚ) : ℚ :=
  match v with
  | none => dflt
  | some x => if x = 0 then dflt else x

/-- `arr.slice(-n)`: the last `n` elements (the whole array when it is
shorter than `n`). -/
def jsSliceLast (n : ℕ) (l : List DataPoint) : List DataPoint :=
  l.drop (l.length - n)

/-- `const newData = [...prevData, newPoint]; return newData.length > 200 ?
newData.slice(-200) : newData` (source lines 221–222). -/
def appendCapped (prevData : List DataPoint) (newPoint : DataPoint) : List DataPoint :=
  let newData := prevData ++ [newPoint]
  if newData.length > 200 then jsSliceLast 200 newData else newData

/-- The `setData` callback of one animation-loop tick (source lines
170–227).  The driver's `isNaN`/`isFinite` validation rejects exactly the
non-finite step results; in the rational model the only step result that
can be non-finite is the logistic one (`none`), so the validation is the
`match` in the logistic branch and is vacuously satisfied in the others. -/
def tickData (selectedModel : ModelKind) (params : Params)
    (prevData : List DataPoint) : List DataPoint :=
  match prevData.getLast? with
  | none => prevData
  | some lastPoint =>
    let newTime := lastPoint.time + params.timeStep
    match selectedModel with
    | .exponential =>
      let currentN := jsOr lastPoint.N params.N0
      let result := exponentialGrowthDiscrete params currentN
      appendCapped prevData ⟨newTime, some result, none, none, none⟩
    | .logistic =>
      let currentN := jsOr lastPoint.N params.N0
      match logisticGrowthDiscrete params currentN with
      | none => prevData
      | some result => appendCapped prevData ⟨newTime, some result, none, none, none⟩
    | .predatorprey =>
      let currentN := jsOr lastPoint.N params.N0
      let currentP := jsOr lastPoint.P params.P0
      let result := predatorPreyODE params currentN currentP params.timeStep
      appendCapped prevData ⟨newTime, some result.1, some result.2, none, none⟩
    | .competition =>
      let currentN1 := jsOr lastPoint.N1 params.N1_0
      let currentN2 := jsOr lastPoint.N2 params.N2_0
      let result := competitionODE params currentN1 currentN2 params.timeStep
      appendCapped prevData ⟨newTime, none, none, some result.1, some result.2⟩

/-- The observable simulation state: the trajectory (`data`) and the
simulation-time clock (`time`). -/
structure SimState where
  data : List DataPoint
  time : ℚ
  deriving Repr, DecidableEq

/-- One full animation-loop tick (the `setInterval` callback, source lines
169–230): `setData` applies `tickData`, and `setTime` advances the clock
by `params.timeStep` unconditionally (line 229), whether or not the
trajectory update was a no-op. -/
def tick (selectedModel : ModelKind) (params : Params) (s : SimState) : SimState :=
  { data := tickData selectedModel params s.data
    time := s.time + params.timeStep }

/-- The seed point built on reset / model change (source lines 238–253 and
256–278). -/
def initialDataFor (selectedModel : ModelKind) (params : Params) : DataPoint :=
  match selectedModel with
  | .exponential => ⟨0, some params.N0, none, none, none⟩
  | .logistic => ⟨0, some params.N0, none, none, none⟩
  | .predatorprey => ⟨0, some params.N0, some params.P0, none, none⟩
  | .competition => ⟨0, none, none, some params.N1_0, some params.N2_0⟩

example : exponentialGrowthDiscrete defaultParams 50 = 60 := by
  norm_num [exponentialGrowthDiscrete, defaultParams]

example : logisticGrowthDiscrete defaultParams 1000 = some 1000 := by
  norm_num [logisticGrowthDiscrete, qdiv, defaultParams]

example : logisticGrowthDiscrete { defaultParams with K := 0 } 50 = none := by
  norm_num [logisticGrowthDiscrete, qdiv, defaultParams]

example : substepCount defaultParams defaultParams.timeStep = 10 := by
  norm_num [substepCount, defaultParams]

example : predatorPreyODE defaultParams (-1) 5 1 = (0, 5) := by
  norm_num [predatorPreyODE]

example :
    tickData .exponential defaultParams [⟨0, some 0, none, none, none⟩] =
      [⟨0, some 0, none, none, none⟩, ⟨0.2, some 60, none, none, none⟩] := by
  norm_num [tickData, jsOr, exponentialGrowthDiscrete, appendCapped, defaultParams]

/-- C6: for every positive population the exponential step is exactly the
closed-form update `N * (1 + birthRate - deathRate)`. -/
theorem claim_C6_exponential_formula (params : Params) (N : ℚ) (h : 0 < N) :
    exponentialGrowthDiscrete params N = N * (1 + (params.birthRate - params.deathRate)) := by
  unfold exponentialGrowthDiscrete
  rw [if_neg (not_le.mpr h)]

/-- Witness for C6 at the spec's example: `N = 50`, `birthRate = 0.3`,
`deathRate = 0.1` gives `60`. -/
theorem claim_C6_witness : exponentialGrowthDiscrete defaultParams 50 = 60 := by
  rw [claim_C6_exponential_formula defaultParams 50 (by norm_num)]
  norm_num [defaultParams]

/-- C7: for every non-positive input both discrete step functions return 0
(extinction is absorbing for the discrete models). -/
theorem claim_C7_discrete_extinction (params : Params) (N : ℚ) (h : N ≤ 0) :
    exponentialGrowthDiscrete params N = 0 ∧
    logisticGrowthDiscrete params N = some 0 := by
  constructor
  · unfold exponentialGrowthDiscrete
    rw [if_pos h]
  · unfold logisticGrowthDiscrete
    rw [if_pos h]

/-- Witness for C7 at `N = -5` with the default parameters. -/
theorem claim_C7_witness :
    exponentialGrowthDiscrete defaultParams (-5) = 0 ∧
    logisticGrowthDiscrete defaultParams (-5) = some 0 :=
  claim_C7_discrete_extinction defaultParams (-5) (by norm_num)

/-- C8: for every positive carrying capacity the logistic step at `N = K`
returns exactly `N` — the carrying capacity is an equilibrium fixed
point. -/
theorem claim_C8_logistic_fixed_point (params : Params) (h : 0 < params.K) :
    logisticGrowthDiscrete params params.K = some params.K := by
  unfold logisticGrowthDiscrete qdiv
  rw [if_neg (not_le.mpr h), if_neg (ne_of_gt h)]
  simp [div_self (ne_of_gt h)]

/-- Witness for C8 at the spec's example `N = K = 1000` (the default
parameters). -/
theorem claim_C8_witness :
    (0 : ℚ) < defaultParams.K ∧
    logisticGrowthDiscrete defaultParams defaultParams.K = some defaultParams.K :=
  ⟨by norm_num [defaultParams],
   claim_C8_logistic_fixed_point defaultParams (by norm_num [defaultParams])⟩

/-- C10: a running tick on an empty trajectory appends nothing and leaves
the trajectory empty (the `prevData.length === 0` guard, source line
171). -/
theorem claim_C10_empty_trajectory_noop (selectedModel : ModelKind) (params : Params) :
    tickData selectedModel params [] = [] := rfl

/-- C4: for both coupled-model integrators, a non-positive input
population short-circuits integration to the clamped pair
`(max 0 ·, max 0 ·)`, and that clamped pair is a fixed point of every
subsequent step — extinction is absorbing, with no spontaneous regrowth. -/
theorem claim_C4_ode_extinction_absorption (params : Params) :
    (∀ N P t : ℚ, N ≤ 0 ∨ P ≤ 0 →
      predatorPreyODE params N P t = (max 0 N, max 0 P) ∧
      ∀ t' : ℚ, predatorPreyODE params (max 0 N) (max 0 P) t' = (max 0 N, max 0 P)) ∧
    (∀ N1 N2 t : ℚ, N1 ≤ 0 ∨ N2 ≤ 0 →
      competitionODE params N1 N2 t = (max 0 N1, max 0 N2) ∧
      ∀ t' : ℚ, competitionODE params (max 0 N1) (max 0 N2) t' = (max 0 N1, max 0 N2)) := by
  constructor
  · intro N P t h
    have hg : max 0 N ≤ 0 ∨ max 0 P ≤ 0 :=
      h.imp (fun hN => max_le le_rfl hN) (fun hP => max_le le_rfl hP)
    constructor
    · unfold predatorPreyODE
      rw [if_pos h]
    · intro t'
      unfold predatorPreyODE
      rw [if_pos hg, ← max_assoc, ← max_assoc, max_self]
  · intro N1 N2 t h
    have hg : max 0 N1 ≤ 0 ∨ max 0 N2 ≤ 0 :=
      h.imp (fun hN => max_le le_rfl hN) (fun hP => max_le le_rfl hP)
    constructor
    · unfold competitionODE
      rw [if_pos h]
    · intro t'
      unfold competitionODE
      rw [if_pos hg, ← max_assoc, ← max_assoc, max_self]

/-- Witness for C4: an extinct prey (resp. species 1) stays extinct and the
partner value is preserved across further steps. -/
theorem claim_C4_witness :
    predatorPreyODE defaultParams (-1) 5 1 = (max 0 (-1), max 0 5) ∧
    predatorPreyODE defaultParams (max 0 (-1)) (max 0 5) 2 = (max 0 (-1), max 0 5) ∧
    competitionODE defaultParams 0 7 1 = (max 0 0, max 0 7) ∧
    competitionODE defaultParams (max 0 0) (max 0 7) 2 = (max 0 0, max 0 7) := by
  obtain ⟨h1, h2⟩ :=
    (claim_C4_ode_extinction_absorption defaultParams).1 (-1) 5 1 (Or.inl (by norm_num))
  obtain ⟨h3, h4⟩ :=
    (claim_C4_ode_extinction_absorption defaultParams).2 0 7 1 (Or.inl le_rfl)
  exact ⟨h1, h2 2, h3, h4 2⟩

lemma lvEulerStep_nonneg (params : Params) (h : ℚ) (s : ℚ × ℚ) :
    0 ≤ (lvEulerStep params h s).1 ∧ 0 ≤ (lvEulerStep params h s).2 :=
  ⟨le_max_left 0 _, le_max_left 0 _⟩

lemma compEulerStep_nonneg (params : Params) (h : ℚ) (s : ℚ × ℚ) :
    0 ≤ (compEulerStep params h s).1 ∧ 0 ≤ (compEulerStep params h s).2 :=
  ⟨le_max_left 0 _, le_max_left 0 _⟩

lemma iterate_nonneg_of_step_nonneg (f : ℚ × ℚ → ℚ × ℚ)
    (hf : ∀ s, 0 ≤ (f s).1 ∧ 0 ≤ (f s).2) (s : ℚ × ℚ)
    (h1 : 0 ≤ s.1) (h2 : 0 ≤ s.2) :
    ∀ n : ℕ, 0 ≤ (f^[n] s).1 ∧ 0 ≤ (f^[n] s).2
  | 0 => ⟨h1, h2⟩
  | n + 1 => by
    rw [Function.iterate_succ_apply']
    exact hf _

lemma predatorPreyODE_nonneg (params : Params) (N P t : ℚ) :
    0 ≤ (predatorPreyODE params N P t).1 ∧ 0 ≤ (predatorPreyODE params N P t).2 := by
  unfold predatorPreyODE
  split
  · exact ⟨le_max_left 0 N, le_max_left 0 P⟩
  · rename_i h
    push_neg at h
    exact iterate_nonneg_of_step_nonneg _ (lvEulerStep_nonneg params _) (N, P) h.1.le h.2.le _

lemma competitionODE_nonneg (params : Params) (N1 N2 t : ℚ) :
    0 ≤ (competitionODE params N1 N2 t).1 ∧ 0 ≤ (competitionODE params N1 N2 t).2 := by
  unfold competitionODE
  split
  · exact ⟨le_max_left 0 N1, le_max_left 0 N2⟩
  · rename_i h
    push_neg at h
    exact iterate_nonneg_of_step_nonneg _ (compEulerStep_nonneg params _) (N1, N2) h.1.le h.2.le _

/-- C2 counterexample: the exponential step does NOT clamp a negative
computed result — with `birthRate = 0`, `deathRate = 2` the input `N = 1`
yields `1 * (1 + 0 - 2) = -1 < 0`. -/
theorem claim_C2_counterexample :
    exponentialGrowthDiscrete { defaultParams with birthRate := 0, deathRate := 2 } 1 = -1 ∧
    ¬(0 ≤ exponentialGrowthDiscrete { defaultParams with birthRate := 0, deathRate := 2 } 1) := by
  have h : exponentialGrowthDiscrete { defaultParams with birthRate := 0, deathRate := 2 } 1 = -1 := by
    norm_num [exponentialGrowthDiscrete, defaultParams]
  refine ⟨h, ?_⟩
  rw [h]
  norm_num

/-- C2 (amended): the two ODE integrators do return non-negative values for
every input and every parameter set (the extinction guard and every Euler
substep clamp with `max 0`); the discrete step functions carry no such
output clamp. -/
theorem claim_C2_ode_nonneg (params : Params) (N P N1 N2 t : ℚ) :
    0 ≤ (predatorPreyODE params N P t).1 ∧ 0 ≤ (predatorPreyODE params N P t).2 ∧
    0 ≤ (competitionODE params N1 N2 t).1 ∧ 0 ≤ (competitionODE params N1 N2 t).2 :=
  ⟨(predatorPreyODE_nonneg params N P t).1, (predatorPreyODE_nonneg params N P t).2,
   (competitionODE_nonneg params N1 N2 t).1, (competitionODE_nonneg params N1 N2 t).2⟩

/-- C9: for positive `timeStep` and `dt` the shared substep count is
`ceil(timeStep / dt) >= 1`, the per-substep size times the substep count
recovers `timeStep` exactly, and both ODE integrators run exactly that
many substeps of exactly that size. -/
theorem claim_C9_substep_partition (params : Params) (t : ℚ)
    (hdt : 0 < params.dt) (ht : 0 < t) :
    1 ≤ substepCount params t ∧
    ((substepCount params t : ℤ) : ℚ) * actualDtOf params t = t ∧
    (∀ N P : ℚ, ¬(N ≤ 0 ∨ P ≤ 0) →
      predatorPreyODE params N P t =
        (lvEulerStep params (actualDtOf params t))^[(substepCount params t).toNat] (N, P)) ∧
    (∀ N1 N2 : ℚ, ¬(N1 ≤ 0 ∨ N2 ≤ 0) →
      competitionODE params N1 N2 t =
        (compEulerStep params (actualDtOf params t))^[(substepCount params t).toNat] (N1, N2)) := by
  have hc : (0 : ℤ) < substepCount params t := by
    unfold substepCount
    exact Int.ceil_pos.mpr (div_pos ht hdt)
  refine ⟨hc, ?_, ?_, ?_⟩
  · have hne : ((substepCount params t : ℤ) : ℚ) ≠ 0 :=
      Int.cast_ne_zero.mpr (ne_of_gt hc)
    unfold actualDtOf
    rw [mul_comm]
    exact div_mul_cancel₀ t hne
  · intro N P h
    unfold predatorPreyODE
    rw [if_neg h]
  · intro N1 N2 h
    unfold competitionODE
    rw [if_neg h]

/-- Witness for C9 at the default parameters: `timeStep = 0.2`,
`dt = 0.02` give `10` substeps whose total is `0.2` exactly. -/
theorem claim_C9_witness :
    1 ≤ substepCount defaultParams 0.2 ∧
    ((substepCount defaultParams 0.2 : ℤ) : ℚ) * actualDtOf defaultParams 0.2 = 0.2 :=
  ⟨(claim_C9_substep_partition defaultParams 0.2 (by norm_num [defaultParams]) (by norm_num)).1,
   (claim_C9_substep_partition defaultParams 0.2 (by norm_num [defaultParams]) (by norm_num)).2.1⟩

lemma appendCapped_eq_drop (prev : List DataPoint) (x : DataPoint) :
    appendCapped prev x = (prev ++ [x]).drop (prev.length + 1 - 200) := by
  unfold appendCapped jsSliceLast
  by_cases h : (prev ++ [x]).length > 200
  · rw [if_pos h]
    simp
  · rw [if_neg h]
    simp only [List.length_append, List.length_singleton] at h
    have h0 : prev.length + 1 - 200 = 0 := by omega
    rw [h0, List.drop_zero]

lemma appendCapped_length (prev : List DataPoint) (x : DataPoint) :
    (appendCapped prev x).length = min (prev.length + 1) 200 := by
  rw [appendCapped_eq_drop, List.length_drop]
  simp only [List.length_append, List.length_singleton]
  omega

lemma tickData_length_le (m : ModelKind) (p : Params) (d : List DataPoint)
    (h : d.length ≤ 200) : (tickData m p d).length ≤ 200 := by
  have hcap : ∀ x : DataPoint, (appendCapped d x).length ≤ 200 := by
    intro x
    rw [appendCapped_length]
    omega
  cases hlast : d.getLast? with
  | none => simpa [tickData, hlast] using h
  | some lastPoint =>
    cases m with
    | exponential => simpa [tickData, hlast] using hcap _
    | logistic =>
      rcases hr : logisticGrowthDiscrete p (jsOr lastPoint.N p.N0) with _ | r
      · simpa [tickData, hlast, hr] using h
      · simpa [tickData, hlast, hr] using hcap _
    | predatorprey => simpa [tickData, hlast] using hcap _
    | competition => simpa [tickData, hlast] using hcap _

lemma tickData_exponential_length (p : Params) (d : List DataPoint) (hne : d ≠ []) :
    (tickData .exponential p d).length = min (d.length + 1) 200 := by
  unfold tickData
  cases hlast : d.getLast? with
  | none => exact absurd (List.getLast?_eq_none_iff.mp hlast) hne
  | some lastPoint => exact appendCapped_length d _

lemma iterate_tickData_exponential_length (p : Params) (n : ℕ) (seed : DataPoint) :
    ((tickData .exponential p)^[n] [seed]).length = min (n + 1) 200 := by
  induction n with
  | zero => simp
  | succ n ih =>
    have hpos : 0 < ((tickData .exponential p)^[n] [seed]).length := by
      rw [ih]
      omega
    rw [Function.iterate_succ_apply',
      tickData_exponential_length p _ (List.ne_nil_of_length_pos hpos), ih]
    omega

/-- C5: appending a tick's point always evicts from the front exactly down
to the 200 most recent points in their original order
(`appendCapped prev x = (prev ++ [x]).drop (prev.length + 1 - 200)`), a
tick never leaves the trajectory longer than 200 points, and after
`n > 200` successful ticks from the seed the trajectory length is exactly
200. -/
theorem claim_C5_trajectory_cap :
    (∀ (prev : List DataPoint) (x : DataPoint),
      appendCapped prev x = (prev ++ [x]).drop (prev.length + 1 - 200)) ∧
    (∀ (prev : List DataPoint) (x : DataPoint),
      (appendCapped prev x).length = min (prev.length + 1) 200) ∧
    (∀ (m : ModelKind) (p : Params) (d : List DataPoint),
      d.length ≤ 200 → (tickData m p d).length ≤ 200) ∧
    (∀ (p : Params) (n : ℕ), 200 < n →
      ((tickData .exponential p)^[n] [initialDataFor .exponential p]).length = 200) := by
  refine ⟨appendCapped_eq_drop, appendCapped_length, tickData_length_le, ?_⟩
  intro p n hn
  rw [iterate_tickData_exponential_length]
  omega

/-- Witness for C5 on a one-point trajectory: the append is the drop-form
suffix, the post-tick length bound holds, and the exact-cap statement
holds at `n = 201`. -/
theorem claim_C5_witness :
    appendCapped [⟨0, some 50, none, none, none⟩] ⟨1, some 60, none, none, none⟩ =
      (([⟨0, some 50, none, none, none⟩] : List DataPoint) ++
        ([⟨1, some 60, none, none, none⟩] : List DataPoint)).drop (1 + 1 - 200) ∧
    (tickData .exponential defaultParams [⟨0, some 50, none, none, none⟩]).length ≤ 200 ∧
    ((tickData .exponential defaultParams)^[201]
      [initialDataFor .exponential defaultParams]).length = 200 :=
  ⟨claim_C5_trajectory_cap.1 _ _,
   claim_C5_trajectory_cap.2.2.1 .exponential defaultParams _ (by simp),
   claim_C5_trajectory_cap.2.2.2 defaultParams 201 (by norm_num)⟩

/-- C1 counterexample: with `K = 0` the logistic successor of the point
`N = 50` is non-finite (`none`), the trajectory is left unchanged — but
the simulation-time clock, advanced unconditionally by `setTime` (source
line 229), still moves from `0` to `0.2`.  So the clock does advance on an
invalid tick, contrary to the claim. -/
theorem claim_C1_counterexample :
    logisticGrowthDiscrete { defaultParams with K := 0 } 50 = none ∧
    (tick .logistic { defaultParams with K := 0 }
        ⟨[⟨0, some 50, none, none, none⟩], 0⟩).data = [⟨0, some 50, none, none, none⟩] ∧
    (tick .logistic { defaultParams with K := 0 }
        ⟨[⟨0, some 50, none, none, none⟩], 0⟩).time = 0.2 ∧
    (0.2 : ℚ) ≠ 0 := by
  refine ⟨?_, ?_, ?_, by norm_num⟩
  · norm_num [logisticGrowthDiscrete, qdiv, defaultParams]
  · norm_num [tick, tickData, jsOr, logisticGrowthDiscrete, qdiv, defaultParams]
  · norm_num [tick, defaultParams]

/-- C1 (amended): when the computed logistic successor is non-finite the
tick leaves the trajectory unchanged, but the simulation-time clock STILL
advances by `timeStep` (the `setTime` call is outside the validation and
runs on every tick). -/
theorem claim_C1_stall_policy (params : Params) (s : SimState) (lastPoint : DataPoint)
    (hlast : s.data.getLast? = some lastPoint)
    (hbad : logisticGrowthDiscrete params (jsOr lastPoint.N params.N0) = none) :
    (tick .logistic params s).data = s.data ∧
    (tick .logistic params s).time = s.time + params.timeStep := by
  refine ⟨?_, rfl⟩
  show tickData .logistic params s.data = s.data
  simp [tickData, hlast, hbad]

/-- Witness for C1 (amended) at the `K = 0` input with clock `3`. -/
theorem claim_C1_witness :
    (tick .logistic { defaultParams with K := 0 }
        ⟨[⟨0, some 50, none, none, none⟩], 3⟩).data = [⟨0, some 50, none, none, none⟩] ∧
    (tick .logistic { defaultParams with K := 0 }
        ⟨[⟨0, some 50, none, none, none⟩], 3⟩).time =
      3 + ({ defaultParams with K := 0 } : Params).timeStep :=
  claim_C1_stall_policy { defaultParams with K := 0 }
    ⟨[⟨0, some 50, none, none, none⟩], 3⟩ ⟨0, some 50, none, none, none⟩
    (by simp)
    (by norm_num [logisticGrowthDiscrete, qdiv, jsOr, defaultParams])

/-- C3 counterexample: with the default parameters (`N0 = 50`) a last
point whose stored population is exactly `0` is NOT stepped from `0`: the
JS `||` fallback treats `0` as falsy, so the tick steps from `N0 = 50` and
appends `60`, whereas stepping from the stored `0` would have appended
`0`. -/
theorem claim_C3_counterexample :
    tickData .exponential defaultParams [⟨0, some 0, none, none, none⟩] =
      [⟨0, some 0, none, none, none⟩, ⟨0.2, some 60, none, none, none⟩] ∧
    exponentialGrowthDiscrete defaultParams 0 = 0 ∧
    (60 : ℚ) ≠ 0 := by
  refine ⟨?_, ?_, by norm_num⟩
  · norm_num [tickData, jsOr, exponentialGrowthDiscrete, appendCapped, defaultParams]
  · norm_num [exponentialGrowthDiscrete]

/-- C3 (amended): on a tick with a non-empty trajectory the values passed
to the active model's step function are the last point's stored values
when those are present AND nonzero; a missing or zero stored value is
replaced by the corresponding initial-condition parameter by the JS `||`
fallback. -/
theorem claim_C3_passed_values (params : Params) (prev : List DataPoint)
    (lastPoint : DataPoint) (h : prev.getLast? = some lastPoint) :
    (∀ x : ℚ, lastPoint.N = some x → x ≠ 0 →
      tickData .exponential params prev =
        appendCapped prev
          ⟨lastPoint.time + params.timeStep,
            some (exponentialGrowthDiscrete params x), none, none, none⟩) ∧
    (∀ x : ℚ, lastPoint.N = some x → x ≠ 0 →
      logisticGrowthDiscrete params x = none →
      tickData .logistic params prev = prev) ∧
    (∀ x r : ℚ, lastPoint.N = some x → x ≠ 0 →
      logisticGrowthDiscrete params x = some r →
      tickData .logistic params prev =
        appendCapped prev
          ⟨lastPoint.time + params.timeStep, some r, none, none, none⟩) ∧
    (∀ x y : ℚ, lastPoint.N = some x → x ≠ 0 → lastPoint.P = some y → y ≠ 0 →
      tickData .predatorprey params prev =
        appendCapped prev
          ⟨lastPoint.time + params.timeStep,
            some (predatorPreyODE params x y params.timeStep).1,
            some (predatorPreyODE params x y params.timeStep).2, none, none⟩) ∧
    (∀ x y : ℚ, lastPoint.N1 = some x → x ≠ 0 → lastPoint.N2 = some y → y ≠ 0 →
      tickData .competition params prev =
        appendCapped prev
          ⟨lastPoint.time + params.timeStep, none, none,
            some (competitionODE params x y params.timeStep).1,
            some (competitionODE params x y params.timeStep).2⟩) := by
  refine ⟨?_, ?_, ?_, ?_, ?_⟩
  · intro x hx hx0
    simp [tickData, h, jsOr, hx, hx0]
  · intro x hx hx0 hnone
    simp [tickData, h, jsOr, hx, hx0, hnone]
  · intro x r hx hx0 hr
    simp [tickData, h, jsOr, hx, hx0, hr]
  · intro x y hx hx0 hy hy0
    simp [tickData, h, jsOr, hx, hx0, hy, hy0]
  · intro x y hx hx0 hy hy0
    simp [tickData, h, jsOr, hx, hx0, hy, hy0]

/-- Witness for C3 (amended): a last point with nonzero `N = 50` is
stepped from `50` itself. -/
theorem claim_C3_witness :
    tickData .exponential defaultParams [⟨0, some 50, none, none, none⟩] =
      appendCapped [⟨0, some 50, none, none, none⟩]
        ⟨(0 : ℚ) + defaultParams.timeStep,
          some (exponentialGrowthDiscrete defaultParams 50), none, none, none⟩ :=
  (claim_C3_passed_values defaultParams [⟨0, some 50, none, none, none⟩]
    ⟨0, some 50, none, none, none⟩ (by simp)).1 50 rfl (by norm_num)
